import Mathlib

/-!
Verification development for the mcp-mem0 administrative scripts.

The repository consists of a provider-configuration builder
(src/utils.py, get_mem0_client) and two administrative CLI tools
(scripts/mem0_memory_manager.py and scripts/qdrant_manager.py).
This file gives a shallow embedding of the configuration-building and
record-management logic of those files and proves the behavioural
properties stated about them.

Modelling conventions:
- Environment variables are an explicit record of optional strings;
  os.getenv returns none when the variable is absent.
- Python truthiness of an optional string (None and the empty string
  are falsy) is the function pyTruthy; the Python expression
  x or d (with x an optional string and d a string default) is pyOr.
- External clients (the mem0 memory client and the qdrant client) are
  modelled by their observable interactions: the list of calls a
  function issues, plus injectable failure behaviour for calls that
  the source wraps in try/except.
-/

namespace Py

/-- Python truthiness of an optional string: None and the empty
string are falsy, every other string is truthy. -/
def pyTruthy : Option String → Bool
  | none => false
  | some s => s ≠ ""

/-- The Python expression x or d for an optional string x and a
string default d: yields d exactly when x is falsy. -/
def pyOr (x : Option String) (d : String) : String :=
  match x with
  | none => d
  | some s => if s = "" then d else s

end Py

open Py

namespace Utils

/-- Process environment as read and mutated by get_mem0_client in
src/utils.py. Every field is an optional string, none meaning the
variable is absent from the environment. -/
structure Env where
  LLM_PROVIDER : Option String
  LLM_API_KEY : Option String
  LLM_CHOICE : Option String
  EMBEDDING_MODEL_CHOICE : Option String
  LLM_BASE_URL : Option String
  OPENAI_API_KEY : Option String
  OPENROUTER_API_KEY : Option String
  VECTOR_STORE_PROVIDER : Option String
  QDRANT_COLLECTION_NAME : Option String
  QDRANT_URL : Option String
  QDRANT_API_KEY : Option String
  DATABASE_URL : Option String
deriving DecidableEq

/-- An environment with every variable absent. -/
def emptyEnv : Env :=
  ⟨none, none, none, none, none, none, none, none, none, none, none, none⟩

/-- Parameter dictionary of the llm section built by get_mem0_client:
keys model, temperature, max_tokens, and (only when present for the
ollama provider) ollama_base_url. -/
structure LLMParams where
  model : Option String
  temperature : ℚ
  max_tokens : ℕ
  ollama_base_url : Option String
deriving DecidableEq

/-- The llm section: a provider identifier plus its parameter
dictionary. -/
structure SectionLLM where
  provider : String
  config : LLMParams
deriving DecidableEq

/-- Parameter dictionary of the embedder section: keys model,
embedding_dims, and (only for ollama, when set) ollama_base_url. -/
structure EmbedderParams where
  model : String
  embedding_dims : ℕ
  ollama_base_url : Option String
deriving DecidableEq

/-- The embedder section: a provider identifier plus its parameter
dictionary. -/
structure SectionEmbedder where
  provider : String
  config : EmbedderParams
deriving DecidableEq

/-- The vector_store section, one of the two shapes built at
src/utils.py lines 119-139: the qdrant shape carries collection name,
embedding dimensionality, url and api key; the supabase shape carries
connection string, collection name and embedding dimensionality. -/
inductive VectorStoreConfig where
  | qdrant (collection_name : String) (embedding_model_dims : ℕ)
      (url : Option String) (api_key : Option String)
  | supabase (connection_string : String) (collection_name : String)
      (embedding_model_dims : ℕ)
deriving DecidableEq

/-- The nested configuration dictionary produced by get_mem0_client.
The llm and embedder keys are absent (none) when no branch of the
corresponding if/elif chain matches the provider. -/
structure Mem0Config where
  llm : Option SectionLLM
  embedder : Option SectionEmbedder
  vector_store : VectorStoreConfig
deriving DecidableEq

/-- First stage of get_mem0_client (src/utils.py lines 29-70):
the llm-section branching, together with its environment side
effects (setting OPENAI_API_KEY when unset, and OPENROUTER_API_KEY
for the openrouter provider). Returns the llm section (none when the
provider matches no branch) and the updated environment. -/
def llmStep (env : Env) : Option SectionLLM × Env :=
  let llm_provider := env.LLM_PROVIDER
  let llm_api_key := env.LLM_API_KEY
  let llm_model := env.LLM_CHOICE
  if llm_provider = some "openai" ∨ llm_provider = some "openrouter" then
    let s : SectionLLM := ⟨"openai", ⟨llm_model, 0.2, 2000, none⟩⟩
    let e1 :=
      if pyTruthy llm_api_key = true ∧ pyTruthy env.OPENAI_API_KEY = false then
        { env with OPENAI_API_KEY := llm_api_key }
      else env
    let e2 :=
      if llm_provider = some "openrouter" ∧ pyTruthy llm_api_key = true then
        { e1 with OPENROUTER_API_KEY := llm_api_key }
      else e1
    (some s, e2)
  else if llm_provider = some "github_copilot" then
    (some ⟨"litellm", ⟨some (pyOr llm_model "github_copilot/gpt-4o"), 0.2, 2000, none⟩⟩, env)
  else if llm_provider = some "ollama" then
    let llm_base_url := env.LLM_BASE_URL
    (some ⟨"ollama",
      ⟨llm_model, 0.2, 2000,
        if pyTruthy llm_base_url = true then llm_base_url else none⟩⟩, env)
  else (none, env)

/-- Second stage of get_mem0_client (src/utils.py lines 73-107): the
embedder-section branching, with the repeated OPENAI_API_KEY side
effect in the openai branch. The environment passed in is the one
produced by llmStep. -/
def embedderStep (llm_provider llm_api_key embedding_model : Option String)
    (env : Env) : Option SectionEmbedder × Env :=
  if llm_provider = some "openai" then
    let e :=
      if pyTruthy llm_api_key = true ∧ pyTruthy env.OPENAI_API_KEY = false then
        { env with OPENAI_API_KEY := llm_api_key }
      else env
    (some ⟨"openai", ⟨pyOr embedding_model "text-embedding-3-small", 1536, none⟩⟩, e)
  else if llm_provider = some "github_copilot" then
    (some ⟨"github_copilot",
      ⟨pyOr embedding_model "github_copilot/text-embedding-3-small", 1536, none⟩⟩, env)
  else if llm_provider = some "ollama" then
    let embedding_base_url := env.LLM_BASE_URL
    (some ⟨"ollama",
      ⟨pyOr embedding_model "nomic-embed-text", 768,
        if pyTruthy embedding_base_url = true then embedding_base_url else none⟩⟩, env)
  else (none, env)

/-- The embedding dimensionality chosen for the vector_store section
(src/utils.py lines 110-114): 1536 for openai and github_copilot,
768 for ollama, and the default 1536 otherwise. -/
def embeddingDimsFor (llm_provider : Option String) : ℕ :=
  if llm_provider = some "openai" ∨ llm_provider = some "github_copilot" then 1536
  else if llm_provider = some "ollama" then 768
  else 1536

/-- The configuration-building portion of get_mem0_client in
src/utils.py (lines 18-139, everything before Memory.from_config):
returns the produced configuration together with the process
environment after the credential side effects. Every construct used
by the source (getenv, string comparison, dictionary literals,
truthiness tests, guarded environment assignment) is total, so the
embedding is a total function. -/
def buildConfig (env : Env) : Mem0Config × Env :=
  let llm_provider := env.LLM_PROVIDER
  let llm_api_key := env.LLM_API_KEY
  let embedding_model := env.EMBEDDING_MODEL_CHOICE
  let r1 := llmStep env
  let r2 := embedderStep llm_provider llm_api_key embedding_model r1.2
  let embedding_dims := embeddingDimsFor llm_provider
  let vector_store_provider := (r2.2).VECTOR_STORE_PROVIDER.getD "supabase"
  let vs : VectorStoreConfig :=
    if vector_store_provider = "qdrant" then
      .qdrant ((r2.2).QDRANT_COLLECTION_NAME.getD "mem0_memories") embedding_dims
        (r2.2).QDRANT_URL (r2.2).QDRANT_API_KEY
    else
      .supabase ((r2.2).DATABASE_URL.getD "") "mem0_memories" embedding_dims
  (⟨r1.1, r2.1, vs⟩, r2.2)

/-- Concrete environment selecting the openrouter provider with an
API key and model but no embedding settings. -/
def envOpenrouterPlain : Env :=
  { emptyEnv with
    LLM_PROVIDER := some "openrouter"
    LLM_API_KEY := some "sk-or-key"
    LLM_CHOICE := some "gpt-4o-mini" }

/-- Concrete environment selecting the openrouter provider with a
fresh API key while both credential variables are already set. -/
def envOpenrouterPreset : Env :=
  { emptyEnv with
    LLM_PROVIDER := some "openrouter"
    LLM_API_KEY := some "new-key"
    OPENAI_API_KEY := some "preset-openai-key"
    OPENROUTER_API_KEY := some "old-key" }

/-- Concrete environment selecting the ollama provider with every
model choice left to its fallback. -/
def envOllamaBare : Env :=
  { emptyEnv with LLM_PROVIDER := some "ollama" }

/-- Concrete environment selecting the qdrant vector-store backend. -/
def envQdrantSel : Env :=
  { emptyEnv with
    LLM_PROVIDER := some "ollama"
    VECTOR_STORE_PROVIDER := some "qdrant"
    QDRANT_URL := some "https://qdrant.example"
    QDRANT_API_KEY := some "qdrant-key" }

/-- Concrete environment selecting the openai provider with a
supplied API key while the credential variable is already set. -/
def envOpenaiPreset : Env :=
  { emptyEnv with
    LLM_PROVIDER := some "openai"
    LLM_API_KEY := some "second-key"
    OPENAI_API_KEY := some "first-key" }

end Utils

namespace MemMgr

/-- A memory record as handled by scripts/mem0_memory_manager.py:
an optional string id plus the fields the script prints. The script
only reads these fields through dictionary get with a default, so
each is optional where the script tolerates absence. -/
structure MemRec where
  id : Option String
  memory : String
  user_id : Option String
  agent_id : Option String
  created_at : Option String
deriving DecidableEq

/-- Observable outcome of the external get_all call, as distinguished
by the normalization code at lines 220-226 and 301-304 of
scripts/mem0_memory_manager.py: a dictionary response (whose entries,
per the external client contract, map string keys to lists of memory
records), a bare list response, any other shape, or a raised
exception. -/
inductive GetAllResult where
  | asDict (entries : List (String × List MemRec))
  | asList (l : List MemRec)
  | asOther
  | asRaise (msg : String)
deriving DecidableEq

/-- The response normalization shared by list_memories (lines
221-226) and safe_delete_all_memories (lines 301-304): a dictionary
containing a results key yields that value, a list passes through,
anything else yields the empty list. The asRaise case is the
behaviour of the enclosing try/except of list_memories, which
returns the empty list. -/
def normalizeGetAll : GetAllResult → List MemRec
  | .asDict entries =>
      match entries.lookup "results" with
      | some l => l
      | none => []
  | .asList l => l
  | .asOther => []
  | .asRaise _ => []

/-- list_memories (scripts/mem0_memory_manager.py lines 207-242)
with the external get_all call replaced by its observable result:
normalizes the response and returns the resulting list; any raised
exception is caught and the empty list returned. -/
def list_memories (resp : GetAllResult) : List MemRec :=
  normalizeGetAll resp

/-- The effective user id used by list_memories (lines 211-216):
when no filter at all is given, the fixed sentinel user is used. -/
def effectiveUserId (user_id agent_id run_id : Option String) : Option String :=
  if pyTruthy user_id = false ∧ pyTruthy agent_id = false ∧ pyTruthy run_id = false then
    some "user"
  else user_id

/-- The per-item deletion loop of safe_delete_all_memories (lines
317-327). fails tells which ids the external delete call raises on;
each item is processed inside its own try/except, so a failure
neither stops the loop nor increments the success counter. Returns
the success count and the list of ids for which a delete call was
issued, in order. -/
def deleteLoop (fails : String → Bool) : List MemRec → ℕ × List String
  | [] => (0, [])
  | m :: rest =>
      match m.id with
      | some mid =>
          if mid ≠ "" then
            let r := deleteLoop fails rest
            if fails mid then (r.1, mid :: r.2) else (r.1 + 1, mid :: r.2)
          else deleteLoop fails rest
      | none => deleteLoop fails rest

/-- Whether the external delete call is configured to fail on a
given record: it fails exactly when the record has an id and the
failure set fails contains that id. Records without an id never
reach the delete call. -/
def failsOnId (fails : String → Bool) (m : MemRec) : Bool :=
  match m.id with
  | some s => fails s
  | none => false

/-- Observable outcome of safe_delete_all_memories: the delete calls
issued, the returned boolean, whether the cancellation message was
printed, whether the no-memories message was printed, and the
reported success count. -/
structure SDAOut where
  calls : List String
  ret : Bool
  cancelled : Bool
  noMemories : Bool
  count : ℕ
deriving DecidableEq

/-- safe_delete_all_memories (scripts/mem0_memory_manager.py lines
293-333) with the external calls replaced by their observable
behaviour: resp is the result of the get_all call, confirmation the
string read from the prompt, fails the ids the external delete call
raises on. A raised get_all propagates to the outer try/except,
which returns false. -/
def safe_delete_all_memories (resp : GetAllResult) (confirmation : String)
    (fails : String → Bool) : SDAOut :=
  match resp with
  | .asRaise _ => ⟨[], false, false, false, 0⟩
  | r =>
      let memories_list := normalizeGetAll r
      if memories_list = [] then ⟨[], true, false, true, 0⟩
      else if confirmation ≠ "DELETE" then ⟨[], false, true, false, 0⟩
      else
        let d := deleteLoop fails memories_list
        ⟨d.2, true, false, false, d.1⟩

/-- The parsed command-line arguments of the memory manager
(scripts/mem0_memory_manager.py lines 389-434): boolean action flags
plus optional string filters. -/
structure Args where
  interactive : Bool
  list_all : Bool
  list_mems : Bool
  delete_memory : Bool
  delete_user_memories : Bool
  delete_agent_memories : Bool
  delete_run_memories : Bool
  safe_delete_all : Bool
  user_id : Option String
  agent_id : Option String
  run_id : Option String
  memory_id : Option String
deriving DecidableEq

/-- The single delegated action chosen by main. -/
inductive MainAction where
  | runInteractive
  | runList (user_id agent_id run_id : Option String)
  | runDeleteMemory (mid : String)
  | runDeleteUser (uid : String)
  | runDeleteAgent (aid : String)
  | runDeleteRun (rid : String)
  | runSafeDeleteAll
  | showHelp
deriving DecidableEq

/-- Outcome of the command dispatch in main: either the process
exits immediately with a printed error and a status code before any
client operation, or exactly one action is invoked. -/
inductive MainOutcome where
  | exit (msg : String) (code : ℕ)
  | act (a : MainAction)
deriving DecidableEq

/-- The command dispatch of main (scripts/mem0_memory_manager.py
lines 440-474): an if/elif chain over the action flags, where each
delete action first validates its required identifier flag and exits
with status 1 when it is missing (None or empty, per Python
truthiness). -/
def mainDispatch (a : Args) : MainOutcome :=
  if a.interactive = true then .act .runInteractive
  else if a.list_all = true ∨ a.list_mems = true then
    .act (.runList a.user_id a.agent_id a.run_id)
  else if a.delete_memory = true then
    match a.memory_id with
    | some mid =>
        if mid ≠ "" then .act (.runDeleteMemory mid)
        else .exit "--memory-id is required for --delete-memory" 1
    | none => .exit "--memory-id is required for --delete-memory" 1
  else if a.delete_user_memories = true then
    match a.user_id with
    | some uid =>
        if uid ≠ "" then .act (.runDeleteUser uid)
        else .exit "--user-id is required for --delete-user-memories" 1
    | none => .exit "--user-id is required for --delete-user-memories" 1
  else if a.delete_agent_memories = true then
    match a.agent_id with
    | some aid =>
        if aid ≠ "" then .act (.runDeleteAgent aid)
        else .exit "--agent-id is required for --delete-agent-memories" 1
    | none => .exit "--agent-id is required for --delete-agent-memories" 1
  else if a.delete_run_memories = true then
    match a.run_id with
    | some rid =>
        if rid ≠ "" then .act (.runDeleteRun rid)
        else .exit "--run-id is required for --delete-run-memories" 1
    | none => .exit "--run-id is required for --delete-run-memories" 1
  else if a.safe_delete_all = true then .act .runSafeDeleteAll
  else .act .showHelp

end MemMgr

namespace Qdrant

/-- The ASCII case mapping applied by the Python str.lower method to
a single character: characters A through Z (code points 65-90) map
to their lowercase counterpart 32 code points higher, every other
character is unchanged. (No Unicode code point outside this range
lowercases to an ASCII letter, so this suffices for comparing the
lowered input against the literal y.) -/
def pyLowerChar (c : Char) : Char :=
  if c.toNat ≥ 65 ∧ c.toNat ≤ 90 then Char.ofNat (c.toNat + 32) else c

/-- The Python str.lower method, applied character by character. -/
def pyLower (s : String) : String :=
  String.mk (s.data.map pyLowerChar)

/-- get_embedding_dimensions (scripts/qdrant_manager.py lines
68-75). -/
def get_embedding_dimensions (llm_provider : String) : ℕ :=
  if llm_provider = "openai" ∨ llm_provider = "github_copilot" then 1536
  else if llm_provider = "ollama" then 768
  else 1536

/-- A mutating call issued to the qdrant client. -/
inductive QCall where
  | deleteCollection (name : String)
  | createCollection (name : String) (dims : ℕ)
  | deletePoints (name : String) (ids : List ℕ)
deriving DecidableEq

/-- Outcome reported by create_collection. -/
inductive CreateOutcome where
  | alreadyExists
  | created (dims : ℕ)
deriving DecidableEq

/-- create_collection (scripts/qdrant_manager.py lines 77-114) with
the client replaced by the observable collection listing cols and
the trace of mutating calls. argName is the optional
--collection-name argument, cfgName the environment fallback,
llm_provider the configured provider. The existence check follows
the source: filter the listed collections by name equality. -/
def create_collection (cols : List String) (argName : Option String)
    (cfgName : String) (force : Bool) (llm_provider : String) :
    List QCall × CreateOutcome :=
  let collection_name := pyOr argName cfgName
  let embedding_dims := get_embedding_dimensions llm_provider
  let existing := cols.filter (fun c => c = collection_name)
  if existing ≠ [] ∧ force = false then
    ([], .alreadyExists)
  else if existing ≠ [] then
    ([.deleteCollection collection_name,
      .createCollection collection_name embedding_dims], .created embedding_dims)
  else
    ([.createCollection collection_name embedding_dims], .created embedding_dims)

/-- Outcome reported by delete_collection. -/
inductive DeleteOutcome where
  | missingName
  | cancelled
  | deleted
  | errorCaught
deriving DecidableEq

/-- delete_collection (scripts/qdrant_manager.py lines 145-165):
requires a collection name, prompts for confirmation unless forced
(the input is lowercased and compared against the literal y), then
issues the delete call inside try/except. delRaises injects a
failure of the external delete call. -/
def delete_collection (argName : Option String) (force : Bool)
    (confirm : String) (delRaises : Bool) : List QCall × DeleteOutcome :=
  match argName with
  | none => ([], .missingName)
  | some collection_name =>
      if collection_name = "" then ([], .missingName)
      else if force = false ∧ pyLower confirm ≠ "y" then ([], .cancelled)
      else if delRaises then ([.deleteCollection collection_name], .errorCaught)
      else ([.deleteCollection collection_name], .deleted)

/-- Outcome reported by clear_collection. -/
inductive ClearOutcome where
  | cancelled
  | alreadyEmpty
  | cleared (n : ℕ)
  | errorCaught
deriving DecidableEq

/-- clear_collection (scripts/qdrant_manager.py lines 213-236):
prompts for confirmation unless forced, scrolls for the point ids
(modelled as the list points), and, when the collection is not
empty, issues one bulk delete call with all collected ids.
bulkRaises injects a failure of that single external call, which the
enclosing try/except turns into an error message; on success the
reported count is the full length of the id list. -/
def clear_collection (collection_name : String) (force : Bool)
    (confirm : String) (points : List ℕ) (bulkRaises : Bool) :
    List QCall × ClearOutcome :=
  if force = false ∧ pyLower confirm ≠ "y" then ([], .cancelled)
  else if points = [] then ([], .alreadyEmpty)
  else if bulkRaises then ([.deletePoints collection_name points], .errorCaught)
  else ([.deletePoints collection_name points], .cleared points.length)

end Qdrant

open Py Utils MemMgr Qdrant

@[simp] theorem pyTruthy_none_eq : pyTruthy none = false := rfl

@[simp] theorem pyTruthy_some_iff (s : String) : pyTruthy (some s) = true ↔ s ≠ "" := by
  simp [pyTruthy]

@[simp] theorem pyOr_none_eq (d : String) : pyOr none d = d := rfl

theorem toNat_ofNat_lt {m : ℕ} (h : m < 55296) : (Char.ofNat m).toNat = m := by
  have hv : m.isValidChar := Or.inl h
  rw [Char.ofNat, dif_pos hv]
  rfl

theorem pyLowerChar_eq_y (c : Char) : pyLowerChar c = 'y' ↔ c = 'y' ∨ c = 'Y' := by
  constructor
  · intro h
    unfold pyLowerChar at h
    split at h
    · rename_i hc
      have h121 : (Char.ofNat (c.toNat + 32)).toNat = 121 := by rw [h]; rfl
      rw [toNat_ofNat_lt (by omega)] at h121
      have h89 : c.toNat = 89 := by omega
      right
      have hoc := Char.ofNat_toNat c
      rw [h89] at hoc
      rw [← hoc]
    · left; exact h
  · rintro (rfl | rfl) <;> decide

theorem pyLower_eq_y_iff (s : String) : pyLower s = "y" ↔ s = "y" ∨ s = "Y" := by
  constructor
  · intro h
    have hd : s.data.map pyLowerChar = ['y'] := congrArg String.data h
    rcases hs : s.data with _ | ⟨c, rest⟩
    · rw [hs] at hd; simp at hd
    · rw [hs] at hd
      rcases rest with _ | ⟨c2, t⟩
      · simp only [List.map_cons, List.map_nil, List.cons.injEq, and_true] at hd
        rcases (pyLowerChar_eq_y c).1 hd with rfl | rfl
        · left; exact String.ext hs
        · right; exact String.ext hs
      · simp at hd
  · rintro (rfl | rfl) <;> decide

theorem deleteLoop_spec (fails : String → Bool) (ms : List MemRec)
    (h : ∀ m ∈ ms, pyTruthy m.id = true) :
    (deleteLoop fails ms).2.length = ms.length ∧
    (deleteLoop fails ms).1 + ms.countP (failsOnId fails) = ms.length := by
  induction ms with
  | nil => simp [deleteLoop]
  | cons m rest ih =>
      obtain ⟨ih1, ih2⟩ := ih (fun x hx => h x (List.mem_cons_of_mem _ hx))
      have hm := h m (List.mem_cons_self m rest)
      match hmi : m.id with
      | none => rw [hmi] at hm; simp at hm
      | some mid =>
          rw [hmi] at hm
          have hne : mid ≠ "" := by simpa using hm
          by_cases hf : fails mid <;>
            simp [deleteLoop, hmi, hne, hf, List.countP_cons, failsOnId, ih1] <;>
            omega

/-- C3: safe_delete_all_memories, when the get_all call succeeds and
at least one memory exists, issues no delete call unless the
confirmation input is exactly the string DELETE; for every other
input it issues no delete call (leaving the store unchanged),
reports cancellation, and returns false. -/
theorem C3_exact_confirmation_required (resp : GetAllResult)
    (confirmation : String) (fails : String → Bool)
    (hnr : ∀ msg, resp ≠ .asRaise msg)
    (hne : normalizeGetAll resp ≠ [])
    (hc : confirmation ≠ "DELETE") :
    safe_delete_all_memories resp confirmation fails =
      ⟨[], false, true, false, 0⟩ := by
  cases resp with
  | asRaise msg => exact absurd rfl (hnr msg)
  | asDict entries => simp [safe_delete_all_memories, hne, hc]
  | asList l => simp_all [safe_delete_all_memories, normalizeGetAll]
  | asOther => simp_all [safe_delete_all_memories, normalizeGetAll]

/-- C3 witness: with one stored memory and the lowercase input
delete, the operation makes no delete call, reports cancellation and
returns false. -/
theorem C3_exact_confirmation_required_witness :
    safe_delete_all_memories
        (.asList [⟨some "mem-1", "likes tea", some "user", none, none⟩])
        "delete" (fun _ => false) = ⟨[], false, true, false, 0⟩ :=
  C3_exact_confirmation_required
    (.asList [⟨some "mem-1", "likes tea", some "user", none, none⟩])
    "delete" (fun _ => false) (fun _ h => nomatch h) (by decide) (by decide)

/-- C9: list_memories always yields a list of records and never
propagates an error: a dictionary response containing a results key
normalizes to that value, a bare list passes through unchanged, a
dictionary without a results key or any other shape yields the empty
list, and a raised exception is caught and the empty list
returned. -/
theorem C9_list_memories_normalization :
    (∀ (entries : List (String × List MemRec)) (l : List MemRec),
        entries.lookup "results" = some l →
        list_memories (.asDict entries) = l) ∧
    (∀ l : List MemRec, list_memories (.asList l) = l) ∧
    (∀ entries : List (String × List MemRec),
        entries.lookup "results" = none →
        list_memories (.asDict entries) = []) ∧
    (list_memories .asOther = []) ∧
    (∀ msg, list_memories (.asRaise msg) = []) := by
  refine ⟨?_, ?_, ?_, rfl, fun _ => rfl⟩
  · intro entries l hl
    simp [list_memories, normalizeGetAll, hl]
  · intro l; rfl
  · intro entries hl
    simp [list_memories, normalizeGetAll, hl]

/-- C9 witness: a dictionary response with a results key holding one
record normalizes to that record list. -/
theorem C9_list_memories_normalization_witness :
    list_memories
        (.asDict [("results", [⟨some "mem-2", "likes coffee", some "user", none, none⟩])]) =
      [⟨some "mem-2", "likes coffee", some "user", none, none⟩] :=
  C9_list_memories_normalization.1
    [("results", [⟨some "mem-2", "likes coffee", some "user", none, none⟩])]
    [⟨some "mem-2", "likes coffee", some "user", none, none⟩] (by decide)

/-- C2 counterexample: clear_collection over two points of which one
is configured to fail never reports exactly one success. The source
issues a single bulk delete call with the whole id list, so either
the call fails and an error is reported with no success count, or it
succeeds and the full count two is reported; a per-item count of one
success is impossible. -/
theorem C2_counterexample :
    (clear_collection "mem0_memories" true "" [1, 2] true).2 ≠ .cleared 1 ∧
    (clear_collection "mem0_memories" true "" [1, 2] false).2 ≠ .cleared 1 := by
  decide

/-- C2 amended: safe_delete_all_memories processes the batch item by
item: over N records with usable ids of which exactly one is
configured to fail, it attempts a delete call for every record and
reports exactly N-1 successes, never aborting early.
clear_collection, by contrast, issues one bulk delete call with all
N collected point ids and reports either an error (when the bulk
call fails) or the full count N, never a per-item success count. -/
theorem C2_batch_tolerance :
    (∀ (fails : String → Bool) (ms : List MemRec),
        (∀ m ∈ ms, pyTruthy m.id = true) →
        ms.countP (failsOnId fails) = 1 →
        (safe_delete_all_memories (.asList ms) "DELETE" fails).calls.length = ms.length ∧
        (safe_delete_all_memories (.asList ms) "DELETE" fails).count = ms.length - 1) ∧
    (∀ (name confirm : String) (points : List ℕ) (br : Bool),
        points ≠ [] →
        (clear_collection name true confirm points br).2 = .errorCaught ∨
        (clear_collection name true confirm points br).2 = .cleared points.length) := by
  constructor
  · intro fails ms hall hone
    have hne : ms ≠ [] := by
      intro h; rw [h] at hone; simp at hone
    obtain ⟨h1, h2⟩ := deleteLoop_spec fails ms hall
    have hout : safe_delete_all_memories (.asList ms) "DELETE" fails =
        ⟨(deleteLoop fails ms).2, true, false, false, (deleteLoop fails ms).1⟩ := by
      simp [safe_delete_all_memories, normalizeGetAll, hne]
    rw [hout]
    rw [hone] at h2
    refine ⟨h1, ?_⟩
    show (deleteLoop fails ms).1 = ms.length - 1
    omega
  · intro name confirm points br hne
    cases br <;> simp [clear_collection, hne]

/-- C2 witness: three records with ids of which exactly the second
fails: all three delete calls are attempted and two successes are
reported. -/
theorem C2_batch_tolerance_witness :
    (safe_delete_all_memories
        (.asList [⟨some "m1", "a", some "user", none, none⟩,
                  ⟨some "m2", "b", some "user", none, none⟩,
                  ⟨some "m3", "c", some "user", none, none⟩])
        "DELETE" (fun s => s == "m2")).calls.length = 3 ∧
    (safe_delete_all_memories
        (.asList [⟨some "m1", "a", some "user", none, none⟩,
                  ⟨some "m2", "b", some "user", none, none⟩,
                  ⟨some "m3", "c", some "user", none, none⟩])
        "DELETE" (fun s => s == "m2")).count = 2 :=
  C2_batch_tolerance.1 (fun s => s == "m2")
    [⟨some "m1", "a", some "user", none, none⟩,
     ⟨some "m2", "b", some "user", none, none⟩,
     ⟨some "m3", "c", some "user", none, none⟩]
    (by decide) (by decide)

/-- C6: create_collection on an already existing collection makes no
mutating client call and reports the existing-collection outcome
when force is not given; with force it deletes the existing
collection first and then recreates it, in that order. -/
theorem C6_create_collection_idempotent (cols : List String)
    (argName : Option String) (cfgName : String) (llm_provider : String)
    (hmem : pyOr argName cfgName ∈ cols) :
    create_collection cols argName cfgName false llm_provider =
      ([], .alreadyExists) ∧
    (create_collection cols argName cfgName true llm_provider).1 =
      [.deleteCollection (pyOr argName cfgName),
       .createCollection (pyOr argName cfgName)
         (get_embedding_dimensions llm_provider)] := by
  have hex : cols.filter (fun c => c = pyOr argName cfgName) ≠ [] := by
    simp only [ne_eq, List.filter_eq_nil_iff, not_forall]
    exact ⟨pyOr argName cfgName, hmem, by simp⟩
  constructor
  · simp [create_collection, hex]
  · simp [create_collection, hex]

/-- C6 witness: with the collection name present in the listing, the
unforced call makes no mutating call and the forced call deletes
then recreates. -/
theorem C6_create_collection_idempotent_witness :
    create_collection ["mem0_memories"] none "mem0_memories" false "openai" =
      ([], .alreadyExists) ∧
    (create_collection ["mem0_memories"] none "mem0_memories" true "openai").1 =
      [.deleteCollection "mem0_memories", .createCollection "mem0_memories" 1536] :=
  C6_create_collection_idempotent ["mem0_memories"] none "mem0_memories" "openai"
    (by decide)

/-- C7: every delete action of the memory-manager CLI whose required
identifier flag is missing (absent or empty, per Python truthiness)
makes the process print an error and exit with status 1 before any
delegated operation; the hypotheses state that no earlier branch of
the if/elif dispatch chain applies. -/
theorem C7_missing_id_exits (a : Args) :
    (a.interactive = false → a.list_all = false → a.list_mems = false →
      a.delete_memory = true → pyTruthy a.memory_id = false →
      mainDispatch a = .exit "--memory-id is required for --delete-memory" 1) ∧
    (a.interactive = false → a.list_all = false → a.list_mems = false →
      a.delete_memory = false → a.delete_user_memories = true →
      pyTruthy a.user_id = false →
      mainDispatch a = .exit "--user-id is required for --delete-user-memories" 1) ∧
    (a.interactive = false → a.list_all = false → a.list_mems = false →
      a.delete_memory = false → a.delete_user_memories = false →
      a.delete_agent_memories = true → pyTruthy a.agent_id = false →
      mainDispatch a = .exit "--agent-id is required for --delete-agent-memories" 1) ∧
    (a.interactive = false → a.list_all = false → a.list_mems = false →
      a.delete_memory = false → a.delete_user_memories = false →
      a.delete_agent_memories = false → a.delete_run_memories = true →
      pyTruthy a.run_id = false →
      mainDispatch a = .exit "--run-id is required for --delete-run-memories" 1) := by
  refine ⟨?_, ?_, ?_, ?_⟩
  · intro h1 h2 h3 h4 h5
    cases hmi : a.memory_id with
    | none => simp [mainDispatch, h1, h2, h3, h4, hmi]
    | some s =>
        rw [hmi] at h5
        simp only [pyTruthy] at h5
        have : s = "" := by simpa using h5
        simp [mainDispatch, h1, h2, h3, h4, hmi, this]
  · intro h1 h2 h3 h4 h5 h6
    cases hmi : a.user_id with
    | none => simp [mainDispatch, h1, h2, h3, h4, h5, hmi]
    | some s =>
        rw [hmi] at h6
        simp only [pyTruthy] at h6
        have : s = "" := by simpa using h6
        simp [mainDispatch, h1, h2, h3, h4, h5, hmi, this]
  · intro h1 h2 h3 h4 h5 h6 h7
    cases hmi : a.agent_id with
    | none => simp [mainDispatch, h1, h2, h3, h4, h5, h6, hmi]
    | some s =>
        rw [hmi] at h7
        simp only [pyTruthy] at h7
        have : s = "" := by simpa using h7
        simp [mainDispatch, h1, h2, h3, h4, h5, h6, hmi, this]
  · intro h1 h2 h3 h4 h5 h6 h7 h8
    cases hmi : a.run_id with
    | none => simp [mainDispatch, h1, h2, h3, h4, h5, h6, h7, hmi]
    | some s =>
        rw [hmi] at h8
        simp only [pyTruthy] at h8
        have : s = "" := by simpa using h8
        simp [mainDispatch, h1, h2, h3, h4, h5, h6, h7, hmi, this]

/-- C7 witness: a delete-memory invocation without a memory id exits
with status 1 and the printed error. -/
theorem C7_missing_id_exits_witness :
    mainDispatch
        ⟨false, false, false, true, false, false, false, false,
         none, none, none, none⟩ =
      .exit "--memory-id is required for --delete-memory" 1 :=
  (C7_missing_id_exits
      ⟨false, false, false, true, false, false, false, false,
       none, none, none, none⟩).1 rfl rfl rfl rfl rfl

/-- C10: without force, the confirmation of delete_collection and
clear_collection is accepted case-insensitively: exactly the inputs
y and Y pass the guard and reach the destructive call, and every
other input cancels the operation with no mutating client call. -/
theorem C10_confirmation_case_insensitive (confirm : String) :
    (∀ (name : String) (dr : Bool), name ≠ "" →
      ((confirm = "y" ∨ confirm = "Y") →
        (delete_collection (some name) false confirm dr).1 =
          [.deleteCollection name]) ∧
      (confirm ≠ "y" → confirm ≠ "Y" →
        delete_collection (some name) false confirm dr = ([], .cancelled))) ∧
    (∀ (name : String) (points : List ℕ) (br : Bool),
      ((confirm = "y" ∨ confirm = "Y") → points ≠ [] →
        (clear_collection name false confirm points br).1 =
          [.deletePoints name points]) ∧
      (confirm ≠ "y" → confirm ≠ "Y" →
        clear_collection name false confirm points br = ([], .cancelled))) := by
  constructor
  · intro name dr hname
    constructor
    · intro hy
      have hl : pyLower confirm = "y" := (pyLower_eq_y_iff confirm).2 hy
      cases dr <;> simp [delete_collection, hname, hl]
    · intro hy hY
      have hl : pyLower confirm ≠ "y" := by
        intro h; rcases (pyLower_eq_y_iff confirm).1 h with h | h
        · exact hy h
        · exact hY h
      simp [delete_collection, hname, hl]
  · intro name points br
    constructor
    · intro hy hpts
      have hl : pyLower confirm = "y" := (pyLower_eq_y_iff confirm).2 hy
      cases br <;> simp [clear_collection, hpts, hl]
    · intro hy hY
      have hl : pyLower confirm ≠ "y" := by
        intro h; rcases (pyLower_eq_y_iff confirm).1 h with h | h
        · exact hy h
        · exact hY h
      simp [clear_collection, hl]

/-- C10 witness: the uppercase input Y proceeds with the delete call,
and the input yes is cancelled without any call. -/
theorem C10_confirmation_case_insensitive_witness :
    (delete_collection (some "mem0_memories") false "Y" false).1 =
      [.deleteCollection "mem0_memories"] ∧
    delete_collection (some "mem0_memories") false "yes" false = ([], .cancelled) :=
  ⟨(((C10_confirmation_case_insensitive "Y").1 "mem0_memories" false (by decide)).1
      (Or.inr rfl)),
   (((C10_confirmation_case_insensitive "yes").1 "mem0_memories" false (by decide)).2
      (by decide) (by decide))⟩

theorem llmStep_env_fields (env : Env) :
    (llmStep env).2.VECTOR_STORE_PROVIDER = env.VECTOR_STORE_PROVIDER ∧
    (llmStep env).2.QDRANT_COLLECTION_NAME = env.QDRANT_COLLECTION_NAME ∧
    (llmStep env).2.QDRANT_URL = env.QDRANT_URL ∧
    (llmStep env).2.QDRANT_API_KEY = env.QDRANT_API_KEY ∧
    (llmStep env).2.DATABASE_URL = env.DATABASE_URL ∧
    (llmStep env).2.LLM_PROVIDER = env.LLM_PROVIDER ∧
    (llmStep env).2.LLM_API_KEY = env.LLM_API_KEY ∧
    (llmStep env).2.LLM_BASE_URL = env.LLM_BASE_URL ∧
    (llmStep env).2.EMBEDDING_MODEL_CHOICE = env.EMBEDDING_MODEL_CHOICE ∧
    (llmStep env).2.LLM_CHOICE = env.LLM_CHOICE := by
  simp only [llmStep]
  split_ifs <;> simp

theorem embedderStep_env_fields (llm_provider llm_api_key embedding_model : Option String)
    (env : Env) :
    (embedderStep llm_provider llm_api_key embedding_model env).2.VECTOR_STORE_PROVIDER =
      env.VECTOR_STORE_PROVIDER ∧
    (embedderStep llm_provider llm_api_key embedding_model env).2.QDRANT_COLLECTION_NAME =
      env.QDRANT_COLLECTION_NAME ∧
    (embedderStep llm_provider llm_api_key embedding_model env).2.QDRANT_URL =
      env.QDRANT_URL ∧
    (embedderStep llm_provider llm_api_key embedding_model env).2.QDRANT_API_KEY =
      env.QDRANT_API_KEY ∧
    (embedderStep llm_provider llm_api_key embedding_model env).2.DATABASE_URL =
      env.DATABASE_URL ∧
    (embedderStep llm_provider llm_api_key embedding_model env).2.OPENROUTER_API_KEY =
      env.OPENROUTER_API_KEY := by
  simp only [embedderStep]
  split_ifs <;> simp

theorem llmStep_openai_key_kept (env : Env)
    (h : pyTruthy env.OPENAI_API_KEY = true) :
    (llmStep env).2.OPENAI_API_KEY = env.OPENAI_API_KEY := by
  simp only [llmStep]
  split_ifs <;> simp_all

theorem embedderStep_openai_key_kept
    (llm_provider llm_api_key embedding_model : Option String) (env : Env)
    (h : pyTruthy env.OPENAI_API_KEY = true) :
    (embedderStep llm_provider llm_api_key embedding_model env).2.OPENAI_API_KEY =
      env.OPENAI_API_KEY := by
  simp only [embedderStep]
  split_ifs <;> simp_all

theorem llmStep_openrouter_key_set (env : Env)
    (hp : env.LLM_PROVIDER = some "openrouter")
    (hk : pyTruthy env.LLM_API_KEY = true) :
    (llmStep env).2.OPENROUTER_API_KEY = env.LLM_API_KEY := by
  simp only [llmStep, hp]
  split_ifs <;> simp_all

/-- C1 counterexample: for the supported provider name openrouter
with no explicit dimension supplied, the produced configuration has
no embedding section at all, because the embedder if/elif chain in
get_mem0_client only matches openai, github_copilot and ollama. -/
theorem C1_counterexample :
    (buildConfig envOpenrouterPlain).1.embedder = none := by
  decide

/-- C1 amended: for the providers openai, github_copilot and ollama
the configuration has the documented llm section (identifier openai,
litellm and ollama respectively, with model, temperature 0.2 and
max_tokens 2000) and an embedding section whose fallback
dimensionality is 1536 for openai and github_copilot and 768 for
ollama; for openrouter the llm section uses the relay identifier
openai but no embedding section is produced. -/
theorem C1_provider_sections (env : Env) :
    (env.LLM_PROVIDER = some "openai" →
      (buildConfig env).1.llm = some ⟨"openai", ⟨env.LLM_CHOICE, 0.2, 2000, none⟩⟩ ∧
      (buildConfig env).1.embedder =
        some ⟨"openai", ⟨pyOr env.EMBEDDING_MODEL_CHOICE "text-embedding-3-small",
          1536, none⟩⟩) ∧
    (env.LLM_PROVIDER = some "openrouter" →
      (buildConfig env).1.llm = some ⟨"openai", ⟨env.LLM_CHOICE, 0.2, 2000, none⟩⟩ ∧
      (buildConfig env).1.embedder = none) ∧
    (env.LLM_PROVIDER = some "github_copilot" →
      (buildConfig env).1.llm =
        some ⟨"litellm", ⟨some (pyOr env.LLM_CHOICE "github_copilot/gpt-4o"),
          0.2, 2000, none⟩⟩ ∧
      (buildConfig env).1.embedder =
        some ⟨"github_copilot",
          ⟨pyOr env.EMBEDDING_MODEL_CHOICE "github_copilot/text-embedding-3-small",
            1536, none⟩⟩) ∧
    (env.LLM_PROVIDER = some "ollama" →
      (buildConfig env).1.llm =
        some ⟨"ollama", ⟨env.LLM_CHOICE, 0.2, 2000,
          if pyTruthy env.LLM_BASE_URL = true then env.LLM_BASE_URL else none⟩⟩ ∧
      (buildConfig env).1.embedder =
        some ⟨"ollama", ⟨pyOr env.EMBEDDING_MODEL_CHOICE "nomic-embed-text", 768,
          if pyTruthy env.LLM_BASE_URL = true then env.LLM_BASE_URL else none⟩⟩) := by
  refine ⟨?_, ?_, ?_, ?_⟩ <;> intro h
  · constructor <;> simp [buildConfig, llmStep, embedderStep, h]
  · constructor <;> simp [buildConfig, llmStep, embedderStep, h]
  · constructor <;> simp [buildConfig, llmStep, embedderStep, h]
  · have hbase := (llmStep_env_fields env).2.2.2.2.2.2.2.1
    constructor <;> simp [buildConfig, llmStep, embedderStep, h]

/-- C1 witness: the ollama provider with no model choices produces
the ollama llm section and an embedding section with the fallback
model and dimensionality 768. -/
theorem C1_provider_sections_witness :
    (buildConfig envOllamaBare).1.llm =
      some ⟨"ollama", ⟨none, 0.2, 2000, none⟩⟩ ∧
    (buildConfig envOllamaBare).1.embedder =
      some ⟨"ollama", ⟨"nomic-embed-text", 768, none⟩⟩ :=
  (C1_provider_sections envOllamaBare).2.2.2 rfl

/-- C4: when the backend selector VECTOR_STORE_PROVIDER is exactly
qdrant, the produced vector-store section has the qdrant shape with
collection name (with its environment fallback), embedding
dimensionality, url and api key; for every other value of the
selector, including absent, it has the supabase shape with
connection string, fixed collection name and embedding
dimensionality. -/
theorem C4_vector_store_shape (env : Env) :
    (env.VECTOR_STORE_PROVIDER = some "qdrant" →
      (buildConfig env).1.vector_store =
        .qdrant (env.QDRANT_COLLECTION_NAME.getD "mem0_memories")
          (embeddingDimsFor env.LLM_PROVIDER) env.QDRANT_URL env.QDRANT_API_KEY) ∧
    (env.VECTOR_STORE_PROVIDER ≠ some "qdrant" →
      (buildConfig env).1.vector_store =
        .supabase (env.DATABASE_URL.getD "") "mem0_memories"
          (embeddingDimsFor env.LLM_PROVIDER)) := by
  obtain ⟨v1, c1, u1, k1, d1, -⟩ := llmStep_env_fields env
  obtain ⟨v2, c2, u2, k2, d2, -⟩ :=
    embedderStep_env_fields env.LLM_PROVIDER env.LLM_API_KEY
      env.EMBEDDING_MODEL_CHOICE (llmStep env).2
  constructor <;> intro h
  · simp [buildConfig, v2, v1, c2, c1, u2, u1, k2, k1, h]
  · have hsel : ((embedderStep env.LLM_PROVIDER env.LLM_API_KEY
        env.EMBEDDING_MODEL_CHOICE (llmStep env).2).2.VECTOR_STORE_PROVIDER).getD
          "supabase" ≠ "qdrant" := by
      rw [v2, v1]
      cases hv : env.VECTOR_STORE_PROVIDER with
      | none => simp
      | some s =>
          rw [hv] at h
          simpa using fun hs => h (by rw [hs])
    simp [buildConfig, hsel, d2, d1]

/-- C4 witness: the qdrant selector yields the qdrant shape with the
fallback collection name and the ollama dimensionality; the empty
environment (selector absent) yields the supabase shape with empty
connection string and the default dimensionality. -/
theorem C4_vector_store_shape_witness :
    (buildConfig envQdrantSel).1.vector_store =
      .qdrant "mem0_memories" 768 (some "https://qdrant.example") (some "qdrant-key") ∧
    (buildConfig emptyEnv).1.vector_store =
      .supabase "" "mem0_memories" 1536 :=
  ⟨(C4_vector_store_shape envQdrantSel).1 rfl,
   (C4_vector_store_shape emptyEnv).2 (fun h => nomatch h)⟩

/-- C5 counterexample: with the openrouter provider, a supplied API
key and the OPENROUTER_API_KEY variable already set, get_mem0_client
overwrites the existing value: after the call the variable holds the
supplied key instead of its previous value. -/
theorem C5_counterexample :
    (buildConfig envOpenrouterPreset).2.OPENROUTER_API_KEY = some "new-key" ∧
    envOpenrouterPreset.OPENROUTER_API_KEY = some "old-key" := by
  decide

/-- C5 amended: the canonical OPENAI_API_KEY variable is never
overwritten when it is already set to a non-empty value, for any
provider; however, for the openrouter provider with a supplied API
key, the OPENROUTER_API_KEY variable is set unconditionally, even
when it already holds a value. -/
theorem C5_credential_propagation (env : Env) :
    (pyTruthy env.OPENAI_API_KEY = true →
      (buildConfig env).2.OPENAI_API_KEY = env.OPENAI_API_KEY) ∧
    (env.LLM_PROVIDER = some "openrouter" →
      pyTruthy env.LLM_API_KEY = true →
      (buildConfig env).2.OPENROUTER_API_KEY = env.LLM_API_KEY) := by
  constructor
  · intro h
    have h1 := llmStep_openai_key_kept env h
    have h2 := embedderStep_openai_key_kept env.LLM_PROVIDER env.LLM_API_KEY
      env.EMBEDDING_MODEL_CHOICE (llmStep env).2 (by rw [h1]; exact h)
    simp [buildConfig, h2, h1]
  · intro hp hk
    have h1 := llmStep_openrouter_key_set env hp hk
    have h2 := (embedderStep_env_fields env.LLM_PROVIDER env.LLM_API_KEY
      env.EMBEDDING_MODEL_CHOICE (llmStep env).2).2.2.2.2.2
    simp [buildConfig, h2, h1]

/-- C5 witness: with the openai provider, a supplied key and the
credential variable already set, the variable keeps its prior
value. -/
theorem C5_credential_propagation_witness :
    (buildConfig envOpenaiPreset).2.OPENAI_API_KEY = some "first-key" :=
  (C5_credential_propagation envOpenaiPreset).1 (by decide)

/-- C8: the configuration-building part of get_mem0_client is a
total function of the environment (its embedding needs no error
case: every construct the source uses is total), and omitted inputs
pass through as absent or defaulted values rather than raising: an
absent provider yields a configuration with no llm and no embedder
section, an absent model choice is passed through as an unset model
for the openai provider, and absent qdrant credentials are passed
through as unset url and api key in the qdrant shape. -/
theorem C8_builder_total_passthrough (env : Env) :
    (env.LLM_PROVIDER = none →
      (buildConfig env).1.llm = none ∧ (buildConfig env).1.embedder = none) ∧
    (env.LLM_PROVIDER = some "openai" → env.LLM_CHOICE = none →
      (buildConfig env).1.llm = some ⟨"openai", ⟨none, 0.2, 2000, none⟩⟩) ∧
    (env.VECTOR_STORE_PROVIDER = some "qdrant" → env.QDRANT_URL = none →
      env.QDRANT_API_KEY = none →
      (buildConfig env).1.vector_store =
        .qdrant (env.QDRANT_COLLECTION_NAME.getD "mem0_memories")
          (embeddingDimsFor env.LLM_PROVIDER) none none) := by
  refine ⟨?_, ?_, ?_⟩
  · intro h
    constructor <;> simp [buildConfig, llmStep, embedderStep, h]
  · intro h hc
    simp [buildConfig, llmStep, h, hc]
  · intro hv hu hk
    obtain ⟨v1, c1, u1, k1, d1, -⟩ := llmStep_env_fields env
    obtain ⟨v2, c2, u2, k2, d2, -⟩ :=
      embedderStep_env_fields env.LLM_PROVIDER env.LLM_API_KEY
        env.EMBEDDING_MODEL_CHOICE (llmStep env).2
    simp [buildConfig, v2, v1, c2, c1, u2, u1, k2, k1, hv, hu, hk]

/-- C8 witness: the empty environment produces a configuration with
no llm and no embedder section, with no error. -/
theorem C8_builder_total_passthrough_witness :
    (buildConfig emptyEnv).1.llm = none ∧ (buildConfig emptyEnv).1.embedder = none :=
  (C8_builder_total_passthrough emptyEnv).1 rfl
